import Mathlib

/-!
Shallow embedding of `src/logfire/dash.py`.

The module-level Python state (`_configured`, `_token`, `_data_dir`,
`_base_url`, plus the `functools.cache` cell of `_get_token`) is modelled as
an explicit `State` record threaded through every operation.  The two
load-time environment booleans (`_in_pyodide`, `_in_jupyter`) are an `Env`
record that never changes.  External collaborators are oracle parameters:
`LogfireConfig.load_token` becomes `lt : LoadToken`, and the httpx client
becomes `http : Request → Response α`.  Python exceptions are modelled with
`Except DashError`; the spec's error taxonomy (§7) maps onto the module's
raise sites: the `RuntimeError`s raised at the two pyodide guards are the
spec's `EnvironmentError`, `LogfireConfigError` is `ConfigurationError`,
the `ValueError` raised by `query` is `QueryError`, and
`response.raise_for_status()` failures are transport errors.
-/

namespace Dash

/-- The two load-time environment flags of dash.py: `_in_pyodide` (the
sandboxed in-browser interpreter) and `_in_jupyter` (ZMQ interactive shell).
Both are computed once at import time and never mutated. -/
structure Env where
  in_pyodide : Bool
  in_jupyter : Bool
deriving DecidableEq, Repr

/-- The module-level mutable state of dash.py: `_configured`, `_token`,
`_data_dir` (a `Path`, modelled as its string), `_base_url`, and the
memoization cell of `@cache def _get_token` (`none` = cache empty;
`functools.cache` stores only values returned normally, never exceptions). -/
structure State where
  configured : Bool
  token : Option String
  data_dir : String
  base_url : Option String
  token_cache : Option String
deriving DecidableEq, Repr

/-- The module state right after import: `_configured = False`,
`_token = None`, `_data_dir = Path('.logfire')`, `_base_url = None`,
and an empty `_get_token` cache. -/
def initState : State :=
  { configured := false
    token := none
    data_dir := ".logfire"
    base_url := none
    token_cache := none }

/-- Python exceptions raised by dash.py, named by the spec's taxonomy (§7):
`environmentError` is the `RuntimeError` raised at the pyodide guards,
`configurationError` is `LogfireConfigError`, `queryError` is the
`ValueError` raised by `query`, and `transportError` is the
`httpx.HTTPStatusError` raised by `response.raise_for_status()`. -/
inductive DashError where
  | environmentError (msg : String)
  | configurationError (msg : String)
  | queryError (msg : String)
  | transportError (status_code : Nat)
deriving DecidableEq, Repr

/-- `_PYODIDE_NOT_ALLOWED_MESSAGE` from dash.py. -/
def _PYODIDE_NOT_ALLOWED_MESSAGE : String :=
  "This function should not be called in the logfire frontend."

/-- `_PYODIDE_MUST_INJECT_MESSAGE` from dash.py. -/
def _PYODIDE_MUST_INJECT_MESSAGE : String :=
  "This function should be injected into pyodide by the web worker."

/-- The message of the `LogfireConfigError` raised by `_get_token` when no
token is found (the three adjacent Python string literals concatenated). -/
def _NO_TOKEN_MESSAGE : String :=
  "No logfire token provided or found in the default locations. You can set the token via the environment variable `LOGFIRE_TOKEN`, or with a call to `logfire.dash.configure`."

/-- The external token-loading collaborator `LogfireConfig.load_token`:
consumes the explicit credential and the discovery path, yields the resolved
credential or nothing (only the first component of its Python return pair is
ever used by dash.py). -/
abbrev LoadToken := Option String → String → Option String

/-- `configure(token=None, data_dir=Path('.logfire'), base_url=None)` from
dash.py: inside pyodide the call is ignored (documented no-op); otherwise it
stores the three values, clears the `_get_token` cache, and sets
`_configured = True`.  It is a total function: the Python code raises
nothing. -/
def configure (env : Env) (token : Option String) (data_dir : String)
    (base_url : Option String) (s : State) : State :=
  if env.in_pyodide then s
  else
    { configured := true
      token := token
      data_dir := data_dir
      base_url := base_url
      token_cache := none }

/-- `@cache def _get_token()` from dash.py.  The `functools.cache` wrapper
consults the memoization cell before the body runs, and stores only a value
returned normally (an exception propagates uncached).  The body: raises
`RuntimeError(_PYODIDE_NOT_ALLOWED_MESSAGE)` in pyodide; if not yet
configured, performs the implicit `configure()` with defaults; delegates to
`LogfireConfig.load_token(token=_token, data_dir=_data_dir)`; raises
`LogfireConfigError` when that yields nothing; otherwise returns (and
caches) the token.  The result triple is (outcome, new state, whether the
token-loading collaborator was invoked). -/
def _get_token (env : Env) (lt : LoadToken) (s : State) :
    Except DashError String × State × Bool :=
  match s.token_cache with
  | some t => (.ok t, s, false)
  | none =>
    if env.in_pyodide then
      (.error (.environmentError _PYODIDE_NOT_ALLOWED_MESSAGE), s, false)
    else
      let s1 := if s.configured then s else configure env none ".logfire" none s
      match lt s1.token s1.data_dir with
      | some t => (.ok t, { s1 with token_cache := some t }, true)
      | none => (.error (.configurationError _NO_TOKEN_MESSAGE), s1, true)

/-- One row of a query result: the Python `dict[str, Any]` mapping column
name to value, modelled as an association list over an arbitrary value
type `α` (dash.py never inspects the values). -/
abbrev Row (α : Type) := List (String × α)

/-- The tagged-union response body of `/dash/query`:
`{"status": "success", "clickhouse_data": [...]}` or
`{"status": "error", "error_details": "..."}` (the `_Success | _Error`
TypedDicts of dash.py). -/
inductive QueryResult (α : Type) where
  | success (clickhouse_data : List (Row α))
  | error (error_details : String)
deriving DecidableEq

/-- The single outbound HTTP request that `_raw_query` builds: URL, query
parameters, and headers. -/
structure Request where
  url : String
  params : List (String × String)
  headers : List (String × String)
deriving DecidableEq, Repr

/-- The HTTP response: transport status code and the JSON body already
parsed as the tagged union. -/
structure Response (α : Type) where
  status_code : Nat
  body : QueryResult α
deriving DecidableEq

/-- Modelled from the spec: `LOGFIRE_BASE_URL`, the fixed default base URL
imported from the `_constants` module, which is not among the sources; the
spec fixes only that it is a constant default, not its value, and no claim
depends on the value. -/
def LOGFIRE_BASE_URL : String := "https://logfire.dev"

/-- `httpx.Response.raise_for_status()` raises unless the status code is in
the 2xx success range. -/
def is_success_status (code : Nat) : Bool :=
  200 ≤ code && code < 300

/-- The Python expression `_base_url or LOGFIRE_BASE_URL` from dash.py:
`or` is a truthiness check on the left operand, so both `None` and the
falsy empty string fall back to the default. -/
def pyOr (bu : Option String) (d : String) : String :=
  match bu with
  | none => d
  | some u => if u = "" then d else u

/-- `async def _raw_query(q)` from dash.py: raises
`RuntimeError(_PYODIDE_MUST_INJECT_MESSAGE)` in pyodide; otherwise resolves
the token via `_get_token()` (propagating its exceptions), builds the route
`(_base_url or LOGFIRE_BASE_URL) + '/dash/query'`, issues one GET with the
SQL as the `q` parameter and the token as the `Authorization` header, raises
on non-success status, and returns the parsed body.  The third component of
the result logs the outbound requests actually issued by the call. -/
def _raw_query {α : Type} (env : Env) (lt : LoadToken)
    (http : Request → Response α) (q : String) (s : State) :
    Except DashError (QueryResult α) × State × List Request :=
  if env.in_pyodide then
    (.error (.environmentError _PYODIDE_MUST_INJECT_MESSAGE), s, [])
  else
    let g := _get_token env lt s
    match g.1 with
    | .error e => (.error e, g.2.1, [])
    | .ok token =>
      let route := pyOr g.2.1.base_url LOGFIRE_BASE_URL ++ "/dash/query"
      let req : Request := ⟨route, [("q", q)], [("Authorization", token)]⟩
      let resp := http req
      if is_success_status resp.status_code then
        (.ok resp.body, g.2.1, [req])
      else
        (.error (.transportError resp.status_code), g.2.1, [req])

/-- `async def query(sql)` from dash.py: delegates to `_raw_query`; on a
`success` body returns `clickhouse_data`; on an `error` body raises
`ValueError(f'Error running query:\n\x7berror_details\x7d')`. -/
def query {α : Type} (env : Env) (lt : LoadToken)
    (http : Request → Response α) (sql : String) (s : State) :
    Except DashError (List (Row α)) × State × List Request :=
  let r := _raw_query env lt http sql s
  match r.1 with
  | .ok (.success rows) => (.ok rows, r.2.1, r.2.2)
  | .ok (.error details) =>
    (.error (.queryError ("Error running query:\n" ++ details)), r.2.1, r.2.2)
  | .error e => (.error e, r.2.1, r.2.2)

/-- The side effect performed by `show`: either `IPython.display.display`
of the item, or plain `print` of it. -/
inductive ShowAction (α : Type) where
  | display (item : α)
  | print (item : α)
deriving DecidableEq

/-- `def show(item)` from dash.py (named `showItem` here because `show` is a
Lean keyword): raises `RuntimeError(_PYODIDE_MUST_INJECT_MESSAGE)` in
pyodide; in a jupyter notebook delegates to `IPython.display.display`;
otherwise falls back to `print`.  The module state is threaded through
unchanged: the Python function never touches the configuration globals. -/
def showItem {α : Type} (env : Env) (item : α) (s : State) :
    Except DashError (ShowAction α) × State :=
  if env.in_pyodide then
    (.error (.environmentError _PYODIDE_MUST_INJECT_MESSAGE), s)
  else if env.in_jupyter then
    (.ok (.display item), s)
  else
    (.ok (.print item), s)

/-- Substring containment: `sub` occurs contiguously inside `s`. -/
def strContains (s sub : String) : Prop :=
  ∃ pre post : String, s = pre ++ sub ++ post

/-- The states of the module reachable from import time by any sequence of
calls to the public operations, under a fixed environment (the flags are
computed once at load) but arbitrary collaborator behaviour at each step. -/
inductive Reachable (env : Env) : State → Prop where
  | init : Reachable env initState
  | step_configure (t : Option String) (dd : String) (bu : Option String)
      (s : State) : Reachable env s → Reachable env (configure env t dd bu s)
  | step_get_token (lt : LoadToken) (s : State) :
      Reachable env s → Reachable env (_get_token env lt s).2.1
  | step_raw_query (α : Type) (lt : LoadToken) (http : Request → Response α)
      (q : String) (s : State) :
      Reachable env s → Reachable env (_raw_query env lt http q s).2.1
  | step_query (α : Type) (lt : LoadToken) (http : Request → Response α)
      (sql : String) (s : State) :
      Reachable env s → Reachable env (query env lt http sql s).2.1
  | step_show (α : Type) (item : α) (s : State) :
      Reachable env s → Reachable env (showItem env item s).2

/-- In pyodide every operation leaves the state untouched (`configure` is a
no-op and every other entry point raises before mutating), so the only
reachable state is the import-time state. -/
theorem reachable_pyodide_eq_init (env : Env) (hpy : env.in_pyodide = true) :
    ∀ s : State, Reachable env s → s = initState := by
  intro s hr
  induction hr with
  | init => rfl
  | step_configure t dd bu s _ ih => simp [configure, hpy, ih]
  | step_get_token lt s _ ih =>
    subst ih
    simp [_get_token, initState, hpy]
  | step_raw_query α lt http q s _ ih => simp [_raw_query, hpy, ih]
  | step_query α lt http sql s _ ih => simp [query, _raw_query, hpy, ih]
  | step_show α item s _ ih => simp [showItem, hpy, ih]

/-- The Configuration State actually consulted by the `_get_token` body: the
state after the implicit default `configure()` that runs when the module was
never explicitly configured. -/
def effState (env : Env) (s : State) : State :=
  if s.configured then s else configure env none ".logfire" none s

/-- Helper: a cache hit returns the cached token, leaves the state alone,
and does not invoke the collaborator. -/
theorem _get_token_cache_hit (env : Env) (lt : LoadToken) (s : State)
    (tok : String) (hc : s.token_cache = some tok) :
    _get_token env lt s = (.ok tok, s, false) := by
  unfold _get_token
  rw [hc]

/-- Helper: in pyodide, a cache miss raises the environment error without
any mutation and without consulting the collaborator. -/
theorem _get_token_pyodide_miss (env : Env) (lt : LoadToken) (s : State)
    (hpy : env.in_pyodide = true) (hc : s.token_cache = none) :
    _get_token env lt s
        = (.error (.environmentError _PYODIDE_NOT_ALLOWED_MESSAGE), s, false) := by
  unfold _get_token
  rw [hc]
  simp [hpy]

/-- Helper: outside pyodide, on a cache miss with the collaborator finding a
token for the effective state, `_get_token` returns it, caches it, and
reports the collaborator invoked. -/
theorem _get_token_miss_found (env : Env) (lt : LoadToken) (s : State)
    (t : String) (hpy : env.in_pyodide = false) (hc : s.token_cache = none)
    (hl : lt (effState env s).token (effState env s).data_dir = some t) :
    _get_token env lt s
        = (.ok t, { effState env s with token_cache := some t }, true) := by
  have hl2 : lt (if s.configured then s else configure env none ".logfire" none s).token
      (if s.configured then s else configure env none ".logfire" none s).data_dir
      = some t := hl
  unfold _get_token
  rw [hc]
  simp [hpy, effState, hl2]

/-- Helper: outside pyodide, on a cache miss with the collaborator finding
nothing for the effective state, `_get_token` raises the configuration error
with the collaborator invoked and the cache still empty. -/
theorem _get_token_miss_notfound (env : Env) (lt : LoadToken) (s : State)
    (hpy : env.in_pyodide = false) (hc : s.token_cache = none)
    (hl : lt (effState env s).token (effState env s).data_dir = none) :
    _get_token env lt s
        = (.error (.configurationError _NO_TOKEN_MESSAGE), effState env s, true) := by
  have hl2 : lt (if s.configured then s else configure env none ".logfire" none s).token
      (if s.configured then s else configure env none ".logfire" none s).data_dir
      = none := hl
  unfold _get_token
  rw [hc]
  simp [hpy, effState, hl2]

/-- Helper: the effective state keeps an empty cache. -/
theorem effState_cache (env : Env) (s : State) (hc : s.token_cache = none) :
    (effState env s).token_cache = none := by
  by_cases hcf : s.configured <;> by_cases hpy : env.in_pyodide = true <;>
    simp [effState, hcf, configure, hpy, hc]

/-- Helper: outside pyodide the effective state is marked configured. -/
theorem effState_configured (env : Env) (s : State)
    (hpy : env.in_pyodide = false) : (effState env s).configured = true := by
  by_cases hcf : s.configured <;> simp [effState, hcf, configure, hpy]

/-- Helper: whenever `_get_token` returns a token normally, that token is in
the cache of the resulting state (either it was a cache hit, or the freshly
loaded token was just stored). -/
theorem _get_token_ok_cached (env : Env) (lt : LoadToken) (s : State)
    (tok : String) (s1 : State) (b : Bool)
    (h : _get_token env lt s = (.ok tok, s1, b)) :
    s1.token_cache = some tok := by
  cases hc : s.token_cache with
  | some t =>
    rw [_get_token_cache_hit env lt s t hc] at h
    simp only [Prod.mk.injEq, Except.ok.injEq] at h
    obtain ⟨h1, h2, -⟩ := h
    rw [← h2, hc, h1]
  | none =>
    by_cases hpy : env.in_pyodide = true
    · rw [_get_token_pyodide_miss env lt s hpy hc] at h
      simp at h
    · have hpy2 : env.in_pyodide = false := by simpa using hpy
      cases hl : lt (effState env s).token (effState env s).data_dir with
      | some t =>
        rw [_get_token_miss_found env lt s t hpy2 hc hl] at h
        simp only [Prod.mk.injEq, Except.ok.injEq] at h
        obtain ⟨h1, h2, -⟩ := h
        rw [← h2, h1]
      | none =>
        rw [_get_token_miss_notfound env lt s hpy2 hc hl] at h
        simp at h

/-- Helper: whenever `_get_token` raises outside pyodide, the resulting
state still has an empty cache (`functools.cache` never stores an
exception), is marked configured (the implicit `configure()` already ran
unless it had), and the collaborator was consulted. -/
theorem _get_token_error_state (env : Env) (lt : LoadToken) (s : State)
    (e : DashError) (s1 : State) (b : Bool)
    (hpy : env.in_pyodide = false)
    (h : _get_token env lt s = (.error e, s1, b)) :
    s1.token_cache = none ∧ s1.configured = true ∧ b = true := by
  cases hc : s.token_cache with
  | some t =>
    rw [_get_token_cache_hit env lt s t hc] at h
    simp at h
  | none =>
    cases hl : lt (effState env s).token (effState env s).data_dir with
    | some t =>
      rw [_get_token_miss_found env lt s t hpy hc hl] at h
      simp at h
    | none =>
      rw [_get_token_miss_notfound env lt s hpy hc hl] at h
      simp only [Prod.mk.injEq, Except.error.injEq] at h
      obtain ⟨-, h2, h3⟩ := h
      subst h2
      exact ⟨effState_cache env s hc, effState_configured env s hpy, h3.symm⟩

/-- C1: for every input and every reachable module state, if the sandbox
flag is true then `_get_token`, `_raw_query`, `query`, and `show` each raise
the spec's `EnvironmentError` (the pyodide-guard `RuntimeError`), regardless
of other configuration and even before any `configure` call. -/
theorem sandbox_ops_raise_environment_error (env : Env) (lt : LoadToken)
    {α : Type} (http : Request → Response α) (q : String) (item : α)
    (s : State) (hpy : env.in_pyodide = true) (hr : Reachable env s) :
    (_get_token env lt s).1
        = .error (.environmentError _PYODIDE_NOT_ALLOWED_MESSAGE) ∧
    (_raw_query env lt http q s).1
        = .error (.environmentError _PYODIDE_MUST_INJECT_MESSAGE) ∧
    (query env lt http q s).1
        = .error (.environmentError _PYODIDE_MUST_INJECT_MESSAGE) ∧
    (showItem env item s).1
        = .error (.environmentError _PYODIDE_MUST_INJECT_MESSAGE) := by
  have hs : s = initState := reachable_pyodide_eq_init env hpy s hr
  subst hs
  refine ⟨?_, ?_, ?_, ?_⟩
  · simp [_get_token, initState, hpy]
  · simp [_raw_query, hpy]
  · simp [query, _raw_query, hpy]
  · simp [showItem, hpy]

/-- C1 witness: in the sandbox environment at the import-time state, all
four operations raise the environment error. -/
theorem sandbox_ops_raise_environment_error_witness :
    (_get_token ⟨true, false⟩ (fun _ _ => none) initState).1
        = .error (.environmentError _PYODIDE_NOT_ALLOWED_MESSAGE) ∧
    (_raw_query ⟨true, false⟩ (fun _ _ => none)
        (fun _ => (⟨200, .success ([] : List (Row Int))⟩ : Response Int))
        "SELECT 1" initState).1
        = .error (.environmentError _PYODIDE_MUST_INJECT_MESSAGE) ∧
    (query ⟨true, false⟩ (fun _ _ => none)
        (fun _ => (⟨200, .success ([] : List (Row Int))⟩ : Response Int))
        "SELECT 1" initState).1
        = .error (.environmentError _PYODIDE_MUST_INJECT_MESSAGE) ∧
    (showItem ⟨true, false⟩ (0 : Int) initState).1
        = .error (.environmentError _PYODIDE_MUST_INJECT_MESSAGE) :=
  sandbox_ops_raise_environment_error ⟨true, false⟩ (fun _ _ => none)
    (fun _ => (⟨200, .success ([] : List (Row Int))⟩ : Response Int))
    "SELECT 1" (0 : Int) initState rfl Reachable.init

/-- C2: whenever the underlying raw query returns a result tagged success,
`query sql` returns exactly the rows carried by that result (its
`clickhouse_data` sequence), in order. -/
theorem query_success_returns_rows {α : Type} (env : Env) (lt : LoadToken)
    (http : Request → Response α) (sql : String) (s : State)
    (rows : List (Row α)) (s1 : State) (log : List Request)
    (h : _raw_query env lt http sql s = (.ok (.success rows), s1, log)) :
    (query env lt http sql s).1 = .ok rows := by
  simp [query, h]

/-- Fixture: the local (neither sandboxed nor notebook) environment. -/
def envLocal : Env := ⟨false, false⟩

/-- Fixture: a token-loading collaborator that always finds `"tok123"`. -/
def ltTok : LoadToken := fun _ _ => some "tok123"

/-- Fixture: a token-loading collaborator that never finds a credential. -/
def ltNone : LoadToken := fun _ _ => none

/-- Fixture: a token-loading collaborator that resolves exactly the explicit
credential it is handed. -/
def ltEcho : LoadToken := fun t _ => t

/-- Fixture: an HTTP collaborator answering every request with the mocked
success body `{"status": "success", "clickhouse_data": [{"1": 1}]}`. -/
def httpOk1 : Request → Response Int := fun _ => ⟨200, .success [[("1", (1 : Int))]]⟩

/-- Fixture: an HTTP collaborator answering every request with the mocked
error body `{"status": "error", "error_details": "syntax error"}`. -/
def httpErrSyntax : Request → Response Int := fun _ => ⟨200, .error "syntax error"⟩

/-- Fixture: the state after `_get_token` auto-configures from the
import-time state and caches `"tok123"`. -/
def stateTok : State :=
  { configured := true
    token := none
    data_dir := ".logfire"
    base_url := none
    token_cache := some "tok123" }

/-- Fixture: the request `_raw_query` builds for `SELECT 1` under the
default base URL with token `"tok123"`. -/
def reqSelect1 : Request :=
  ⟨LOGFIRE_BASE_URL ++ "/dash/query", [("q", "SELECT 1")],
    [("Authorization", "tok123")]⟩

/-- C2 witness: `query "SELECT 1"` against the mocked success response
returns exactly `[{"1": 1}]`. -/
theorem query_success_returns_rows_witness :
    (query envLocal ltTok httpOk1 "SELECT 1" initState).1
        = .ok [[("1", (1 : Int))]] :=
  query_success_returns_rows envLocal ltTok httpOk1 "SELECT 1" initState
    [[("1", (1 : Int))]] stateTok [reqSelect1] rfl

/-- C3: whenever the underlying raw query returns a result tagged error,
`query sql` raises a `QueryError` (the `ValueError` of dash.py) whose
message embeds the server-provided `error_details` string verbatim as a
substring. -/
theorem query_error_raises_query_error {α : Type} (env : Env)
    (lt : LoadToken) (http : Request → Response α) (sql : String) (s : State)
    (details : String) (s1 : State) (log : List Request)
    (h : _raw_query env lt http sql s = (.ok (.error details), s1, log)) :
    (query env lt http sql s).1
        = .error (.queryError ("Error running query:\n" ++ details)) ∧
    strContains ("Error running query:\n" ++ details) details := by
  constructor
  · simp [query, h]
  · exact ⟨"Error running query:\n", "", by simp⟩

/-- C3 witness: against the mocked error response with details
`"syntax error"`, `query` raises the query error and its message contains
the substring `"syntax error"`. -/
theorem query_error_raises_query_error_witness :
    (query envLocal ltTok httpErrSyntax "SELECT x" initState).1
        = .error (.queryError ("Error running query:\n" ++ "syntax error")) ∧
    strContains ("Error running query:\n" ++ "syntax error") "syntax error" :=
  query_error_raises_query_error envLocal ltTok httpErrSyntax "SELECT x"
    initState "syntax error" stateTok
    [⟨LOGFIRE_BASE_URL ++ "/dash/query", [("q", "SELECT x")],
      [("Authorization", "tok123")]⟩] rfl

/-- C4: outside the sandbox, `configure` (a total function: the Python code
raises nothing) replaces the three stored values, sets the configured flag,
and empties the token cache, so that a subsequent `_get_token` invokes the
token-loading collaborator with the newly stored credential and discovery
path — returning exactly what the collaborator resolves from them rather
than any previously cached token. -/
theorem configure_replaces_and_invalidates (env : Env) (lt : LoadToken)
    (t : Option String) (dd : String) (bu : Option String) (s : State)
    (tok : String) (hpy : env.in_pyodide = false)
    (hlt : lt t dd = some tok) :
    (configure env t dd bu s).token = t ∧
    (configure env t dd bu s).data_dir = dd ∧
    (configure env t dd bu s).base_url = bu ∧
    (configure env t dd bu s).configured = true ∧
    (configure env t dd bu s).token_cache = none ∧
    (_get_token env lt (configure env t dd bu s)).2.2 = true ∧
    (_get_token env lt (configure env t dd bu s)).1 = .ok tok := by
  simp [configure, hpy, _get_token, hlt]

/-- C4 witness: after configuring a fresh explicit credential over a state
that already caches a different token, `_get_token` resolves the new
credential through the collaborator. -/
theorem configure_replaces_and_invalidates_witness :
    (configure envLocal (some "newtok") "/tmp/x" (some "http://x") stateTok).token
        = some "newtok" ∧
    (configure envLocal (some "newtok") "/tmp/x" (some "http://x") stateTok).data_dir
        = "/tmp/x" ∧
    (configure envLocal (some "newtok") "/tmp/x" (some "http://x") stateTok).base_url
        = some "http://x" ∧
    (configure envLocal (some "newtok") "/tmp/x" (some "http://x") stateTok).configured
        = true ∧
    (configure envLocal (some "newtok") "/tmp/x" (some "http://x") stateTok).token_cache
        = none ∧
    (_get_token envLocal ltEcho
        (configure envLocal (some "newtok") "/tmp/x" (some "http://x") stateTok)).2.2
        = true ∧
    (_get_token envLocal ltEcho
        (configure envLocal (some "newtok") "/tmp/x" (some "http://x") stateTok)).1
        = .ok "newtok" :=
  configure_replaces_and_invalidates envLocal ltEcho (some "newtok") "/tmp/x"
    (some "http://x") stateTok "newtok" rfl rfl

/-- C5: outside the sandbox, starting from an uncached state, a successful
`_get_token` invoked the collaborator, and a second call with no intervening
`configure` yields the identical credential from the cache, with the
collaborator not invoked and the state untouched. -/
theorem get_token_memoized (env : Env) (lt : LoadToken) (s : State)
    (tok : String) (s1 : State) (b : Bool)
    (hpy : env.in_pyodide = false) (hc : s.token_cache = none)
    (h : _get_token env lt s = (.ok tok, s1, b)) :
    b = true ∧ _get_token env lt s1 = (.ok tok, s1, false) := by
  have hcached : s1.token_cache = some tok := _get_token_ok_cached env lt s tok s1 b h
  refine ⟨?_, _get_token_cache_hit env lt s1 tok hcached⟩
  cases hl : lt (effState env s).token (effState env s).data_dir with
  | some t =>
    rw [_get_token_miss_found env lt s t hpy hc hl] at h
    simp only [Prod.mk.injEq, Except.ok.injEq] at h
    exact h.2.2.symm
  | none =>
    rw [_get_token_miss_notfound env lt s hpy hc hl] at h
    simp at h

/-- C5 witness: two `_get_token` calls from the import-time state; the first
invokes the collaborator and the second is a pure cache read returning the
same credential. -/
theorem get_token_memoized_witness :
    true = true ∧ _get_token envLocal ltTok stateTok = (.ok "tok123", stateTok, false) :=
  get_token_memoized envLocal ltTok initState "tok123" stateTok true rfl rfl rfl

/-- C6: outside the sandbox with an empty cache, whenever the token-loading
collaborator returns no credential for the effective stored credential and
discovery path (after the implicit default `configure()` when never
configured), `_get_token` raises the `ConfigurationError` whose message
references both remediation paths: the `LOGFIRE_TOKEN` environment variable
and the explicit `logfire.dash.configure` call. -/
theorem get_token_no_credential_error (env : Env) (lt : LoadToken)
    (s : State) (hpy : env.in_pyodide = false) (hc : s.token_cache = none)
    (hlt : lt (if s.configured then s.token else none)
        (if s.configured then s.data_dir else ".logfire") = none) :
    (_get_token env lt s).1 = .error (.configurationError _NO_TOKEN_MESSAGE) ∧
    strContains _NO_TOKEN_MESSAGE "LOGFIRE_TOKEN" ∧
    strContains _NO_TOKEN_MESSAGE "logfire.dash.configure" := by
  refine ⟨?_, ?_, ?_⟩
  · have hl : lt (effState env s).token (effState env s).data_dir = none := by
      by_cases hcf : s.configured <;> simp [hcf] at hlt <;>
        simp [effState, hcf, configure, hpy, hlt]
    rw [_get_token_miss_notfound env lt s hpy hc hl]
  · exact ⟨"No logfire token provided or found in the default locations. You can set the token via the environment variable `",
      "`, or with a call to `logfire.dash.configure`.", by rfl⟩
  · exact ⟨"No logfire token provided or found in the default locations. You can set the token via the environment variable `LOGFIRE_TOKEN`, or with a call to `",
      "`.", by rfl⟩

/-- C6 witness: from the import-time state with a collaborator that finds
nothing, `_get_token` raises the configuration error naming both remediation
paths. -/
theorem get_token_no_credential_error_witness :
    (_get_token envLocal ltNone initState).1
        = .error (.configurationError _NO_TOKEN_MESSAGE) ∧
    strContains _NO_TOKEN_MESSAGE "LOGFIRE_TOKEN" ∧
    strContains _NO_TOKEN_MESSAGE "logfire.dash.configure" :=
  get_token_no_credential_error envLocal ltNone initState rfl rfl rfl

/-- C7: inside the sandbox, `configure` is a no-op for every argument: a
total function returning the state unchanged — credential, discovery path,
base URL, configured flag and token cache all untouched. -/
theorem configure_sandbox_noop (env : Env) (t : Option String) (dd : String)
    (bu : Option String) (s : State) (hpy : env.in_pyodide = true) :
    configure env t dd bu s = s := by
  simp [configure, hpy]

/-- C7 witness: a sandboxed `configure` with fresh values leaves a concrete
state exactly as it was. -/
theorem configure_sandbox_noop_witness :
    configure ⟨true, false⟩ (some "newtok") "/tmp/x" (some "http://x") stateTok
        = stateTok :=
  configure_sandbox_noop ⟨true, false⟩ (some "newtok") "/tmp/x"
    (some "http://x") stateTok rfl

/-- The request `_raw_query` builds in state `s` with token `tok` for SQL
`q`: a GET to `{base_url}/dash/query` where the base URL is the explicit
override when a truthy (non-empty) one is set and the fixed default
otherwise (Python `or` semantics), with the SQL as the `q` parameter and
the token as the `Authorization` header. -/
def reqOf (s : State) (tok q : String) : Request :=
  ⟨pyOr s.base_url LOGFIRE_BASE_URL ++ "/dash/query", [("q", q)],
    [("Authorization", tok)]⟩

/-- Helper: outside pyodide with a successfully resolved token,
`_raw_query` evaluates to the single-request round trip through `reqOf`. -/
theorem _raw_query_eq {α : Type} (env : Env) (lt : LoadToken)
    (http : Request → Response α) (q : String) (s : State)
    (tok : String) (s1 : State) (b : Bool)
    (hpy : env.in_pyodide = false)
    (hg : _get_token env lt s = (.ok tok, s1, b)) :
    _raw_query env lt http q s
      = (if is_success_status (http (reqOf s1 tok q)).status_code then
          .ok (http (reqOf s1 tok q)).body
        else
          .error (.transportError (http (reqOf s1 tok q)).status_code),
        s1, [reqOf s1 tok q]) := by
  unfold _raw_query
  rw [hg]
  simp only [hpy, Bool.false_eq_true, if_false, reqOf]
  by_cases hst : is_success_status
      (http ⟨pyOr s1.base_url LOGFIRE_BASE_URL ++ "/dash/query",
        [("q", q)], [("Authorization", tok)]⟩).status_code = true <;>
    simp [hst]

/-- C8: outside the sandbox, whenever token resolution succeeds,
`_raw_query` issues exactly one outbound GET request — to
`{base_url}/dash/query` with the SQL as the `q` parameter and the resolved
token as the `Authorization` header, the base URL being the configured
override or else the fixed default — and raises a transport error on any
non-success status instead of returning the parsed tagged-union body. -/
theorem raw_query_single_request {α : Type} (env : Env) (lt : LoadToken)
    (http : Request → Response α) (q : String) (s : State)
    (tok : String) (s1 : State) (b : Bool)
    (hpy : env.in_pyodide = false)
    (hg : _get_token env lt s = (.ok tok, s1, b)) :
    (_raw_query env lt http q s).2.2 = [reqOf s1 tok q] ∧
    (_raw_query env lt http q s).2.1 = s1 ∧
    (_raw_query env lt http q s).1
        = (if is_success_status (http (reqOf s1 tok q)).status_code then
            .ok (http (reqOf s1 tok q)).body
          else
            .error (.transportError (http (reqOf s1 tok q)).status_code)) := by
  rw [_raw_query_eq env lt http q s tok s1 b hpy hg]
  exact ⟨rfl, rfl, rfl⟩

/-- C8 witness: a concrete `_raw_query` under the default base URL issues
exactly the expected single request and returns the success body. -/
theorem raw_query_single_request_witness :
    (_raw_query envLocal ltTok httpOk1 "SELECT 1" initState).2.2
        = [reqOf stateTok "tok123" "SELECT 1"] ∧
    (_raw_query envLocal ltTok httpOk1 "SELECT 1" initState).2.1 = stateTok ∧
    (_raw_query envLocal ltTok httpOk1 "SELECT 1" initState).1
        = (if is_success_status (httpOk1 (reqOf stateTok "tok123" "SELECT 1")).status_code then
            .ok (httpOk1 (reqOf stateTok "tok123" "SELECT 1")).body
          else
            .error (.transportError (httpOk1 (reqOf stateTok "tok123" "SELECT 1")).status_code)) :=
  raw_query_single_request envLocal ltTok httpOk1 "SELECT 1" initState
    "tok123" stateTok true rfl rfl

/-- C9: outside the sandbox, `show` dispatches by environment: in a notebook
it delegates the item to the rich-display mechanism, otherwise it falls back
to textual printing; in both cases it returns without raising and leaves
the module state untouched. -/
theorem show_dispatch {α : Type} (env : Env) (item : α) (s : State)
    (hpy : env.in_pyodide = false) :
    (showItem env item s).2 = s ∧
    (showItem env item s).1
        = .ok (if env.in_jupyter then .display item else .print item) := by
  by_cases hj : env.in_jupyter <;> simp [showItem, hpy, hj]

/-- C9 witness: in the notebook environment, `show` renders a concrete item
through the display mechanism and leaves a concrete state unchanged. -/
theorem show_dispatch_witness :
    (showItem ⟨false, true⟩ (7 : Int) stateTok).2 = stateTok ∧
    (showItem ⟨false, true⟩ (7 : Int) stateTok).1
        = .ok (if (⟨false, true⟩ : Env).in_jupyter then .display (7 : Int)
          else .print (7 : Int)) :=
  show_dispatch ⟨false, true⟩ (7 : Int) stateTok rfl

/-- C10: a failed token resolution is not memoized — outside the sandbox,
after `_get_token` raises, the resulting state still has an empty cache, and
a subsequent call re-invokes the (possibly changed) token-loading
collaborator and, when it now finds a credential, succeeds and caches it
without any intervening `configure`. -/
theorem get_token_failure_not_memoized (env : Env) (lt lt2 : LoadToken)
    (s : State) (e : DashError) (s1 : State) (b : Bool) (tok : String)
    (hpy : env.in_pyodide = false)
    (h : _get_token env lt s = (.error e, s1, b))
    (hlt2 : lt2 s1.token s1.data_dir = some tok) :
    s1.token_cache = none ∧
    _get_token env lt2 s1 = (.ok tok, { s1 with token_cache := some tok }, true) := by
  obtain ⟨hc1, hcf1, -⟩ := _get_token_error_state env lt s e s1 b hpy h
  refine ⟨hc1, ?_⟩
  unfold _get_token
  rw [hc1]
  simp [hpy, hcf1, hlt2]

/-- C10 witness: a first `_get_token` with a collaborator finding nothing
raises; a second call with a collaborator that now finds a credential
re-invokes it and caches the token, with no `configure` in between. -/
theorem get_token_failure_not_memoized_witness :
    ({ configured := true, token := none, data_dir := ".logfire",
       base_url := none, token_cache := none } : State).token_cache = none ∧
    _get_token envLocal ltTok
        { configured := true, token := none, data_dir := ".logfire",
          base_url := none, token_cache := none }
        = (.ok "tok123", stateTok, true) :=
  get_token_failure_not_memoized envLocal ltNone ltTok initState
    (.configurationError _NO_TOKEN_MESSAGE)
    { configured := true, token := none, data_dir := ".logfire",
      base_url := none, token_cache := none }
    true "tok123" rfl rfl rfl

end Dash
